import Mathlib

/-!
Shallow embedding of `sftp.py` (class `SFTP`): connection-parameter
resolution, private-key discovery, and pass-through file operations.

The external collaborators (paramiko's key decoders, ssh-config lookup, the
filesystem and the remote server) are modelled as an explicit environment
`Env` of opaque functions; the code of `sftp.py` is translated line by line
into Lean functions over that environment.  Each operation additionally
returns the list of observable `Event`s it performed (config loads, key-load
attempts, transport connects, remote file operations), so that claims about
"never invoked" / ordering are statements about the event trace.
-/

deriving instance DecidableEq for Except

namespace Sftp

/-- Python `str.isspace` characters relevant to `str.strip()`. -/
def isPySpace (c : Char) : Bool :=
  c = ' ' || c = '\t' || c = '\n' || c = '\r' || c = '\x0b' || c = '\x0c'

/-- Python `str.strip()`: remove leading and trailing whitespace. -/
def pyStrip (s : String) : String :=
  ⟨List.rdropWhile isPySpace (List.dropWhile isPySpace s.data)⟩

/-- A string with no surrounding whitespace (what `str.strip()` guarantees). -/
def IsTrimmed (s : String) : Prop :=
  List.dropWhile isPySpace s.data = s.data ∧ List.rdropWhile isPySpace s.data = s.data

/-- Python `str.startswith` (character-level prefix test). -/
def pyStartsWith (s pre : String) : Bool :=
  pre.data.isPrefixOf s.data

/-- Python `str.endswith` (character-level suffix test). -/
def pyEndsWith (s suf : String) : Bool :=
  suf.data.reverse.isPrefixOf s.data.reverse

/-- Model of `os.path.expanduser` for the leading-tilde forms actually used
by the source (`~` and `~/...`); other paths are returned unchanged. -/
def expanduser (home : String) (p : String) : String :=
  if p = "~" then home
  else if pyStartsWith p "~/" then home ++ ⟨p.data.drop 1⟩
  else p

/-- Model of `os.path.join` for two components (posix semantics). -/
def pathJoin (a b : String) : String :=
  if pyStartsWith b "/" then b
  else if a = "" || pyEndsWith a "/" then a ++ b
  else a ++ "/" ++ b

/-- Python truthiness of an optional string (`None` and `""` are falsy),
as used by `self.user and self.pkey`, `self.user or ...`, `local_path or ...`. -/
def truthyS : Option String → Bool
  | some s => !(s == "")
  | none => false

/-- Python `a or b` for an optional string `a` with default `b`. -/
def pyOr (o : Option String) (d : String) : String :=
  match o with
  | some s => if s = "" then d else s
  | none => d

/-- Opaque decoded private key material (paramiko `PKey` object).  A key
object is always truthy in Python, which the embedding reflects by `KeyMaterial`
being inhabited data with no falsy value. -/
structure KeyMaterial where
  tag : Nat
deriving DecidableEq, Repr

/-- Exceptions that can escape the translated code.  `sshExc` is paramiko's
`SSHException` (the only class caught by the source's handlers); `otherExc`
stands for any non-`SSHException` failure of a collaborator call. -/
inductive Err where
  | noSSHConfigFound
  | noPrivateKeyFound
  | sshExc
  | otherExc
  | indexError
deriving DecidableEq, Repr

/-- The `identityfile` field of a parsed ssh-config entry: absent, a single
string (older paramiko) or a list of strings (newer paramiko). -/
inductive IdentVal where
  | str (s : String)
  | list (l : List String)
deriving DecidableEq, Repr

/-- One looked-up ssh-config entry (`config.lookup(host)` result); `none`
fields are keys absent from the returned dict. -/
structure SSHConfigEntry where
  hostname : Option String
  port : Option Nat
  user : Option String
  identityfile : Option IdentVal
deriving DecidableEq, Repr

/-- Observable actions of the code, recorded in order. -/
inductive Event where
  | configLoad (path : String)
  | warnMultipleKeys (keys : List String) (first : String)
  | loadKey (path : Option String)
  | connect (host : String) (port : Nat) (user : String)
  | listdir (dir : String) (alive : Bool)
  | getOp (remote localFile : String) (alive : Bool)
  | removeOp (path : String) (alive : Bool)
  | putOp (localFile remote : String) (alive : Bool)
  | fileOpen (remote mode : String) (alive : Bool)
  | fileClose (fd : Nat)
deriving DecidableEq, Repr

/-- The environment: every collaborator the source calls.  `rsa`/`dss` are
`paramiko.RSAKey.from_private_key_file` / `paramiko.DSSKey.from_private_key_file`
(argument is the — possibly absent — path handed to them); `config` is
`paramiko.SSHConfig.lookup`; the rest model `os`, `pwd` and the remote
SFTP server. -/
structure Env where
  home : String
  osUser : String
  cwd : String
  configExists : Bool
  config : String → SSHConfigEntry
  rsa : Option String → Except Err KeyMaterial
  dss : Option String → Except Err KeyMaterial
  sshHomeExists : Bool
  sshHomeList : List String
  listdir : String → Except Err (List String)
  getf : String → String → Except Err Unit
  removef : String → Except Err Unit
  putf : String → String → Except Err Unit
  fileOpen : String → String → Except Err Nat

/-- The immutable constructor state of one `SFTP` object
(`host`, `pkey`, `port`, `user`, `ssh_config_path`). -/
structure SFTPObj where
  host : String
  pkey : Option String
  port : Nat
  user : Option String
  sshConfigPath : String
deriving DecidableEq, Repr

/-- The mutable handles of one `SFTP` object: `self.transport`
(`none` = `None`, `some true` = open, `some false` = closed) and
`self.sftp` (`false` = `None`). -/
structure SFTPState where
  transport : Option Bool
  sftp : Bool
deriving DecidableEq, Repr

/-- Is `self.transport` a live (not closed) transport? -/
def aliveOf (st : SFTPState) : Bool :=
  match st.transport with
  | some b => b
  | none => false

/-- Translation of `SFTP.__exit__`: `self.transport.close()` — closes the transport object
but leaves both `self.transport` and `self.sftp` set. -/
def sftpExit (st : SFTPState) : SFTPState :=
  { st with transport := st.transport.map (fun _ => false) }

/-- Translation of `SFTP._get_private_key(key_path)` (result value): strip and expanduser
the path when it is not `None`, try the RSA decoder, and on `SSHException`
(only) try the DSS decoder; any DSS failure, and any non-`SSHException`
RSA failure, propagates. -/
def get_private_key (env : Env) (keyPath : Option String) : Except Err KeyMaterial :=
  let path := keyPath.map (fun p => expanduser env.home (pyStrip p))
  match env.rsa path with
  | .ok k => .ok k
  | .error .sshExc => env.dss path
  | .error e => .error e

/-- The `isinstance(private_key_path, list)` normalisation in
`get_config_connection_details`: pick the first element of a list value
(warning when there are several; `IndexError` on an empty list). -/
def selectIdentity : Option IdentVal → List Event × Except Err (Option String)
  | none => ([], .ok none)
  | some (.str s) => ([], .ok (some s))
  | some (.list []) => ([], .error .indexError)
  | some (.list [x]) => ([], .ok (some x))
  | some (.list (x :: y :: ys)) => ([.warnMultipleKeys (x :: y :: ys) x], .ok (some x))

/-- The `except SSHException:` fallback body of
`get_config_connection_details`: look in `~/.ssh` for `id_rsa` then
`id_dsa`, load the first name present (a load failure propagates raw);
raise `NoPrivateKeyFound` when neither name is present; when `~/.ssh`
does not exist, fall through with `private_key = None`. -/
def defaultKeySearch (env : Env) : List Event × Except Err (Option KeyMaterial) :=
  let sshHome := expanduser env.home "~/.ssh"
  if env.sshHomeExists then
    if "id_rsa" ∈ env.sshHomeList then
      let p := pathJoin sshHome "id_rsa"
      ([.loadKey (some p)], (get_private_key env (some p)).map some)
    else if "id_dsa" ∈ env.sshHomeList then
      let p := pathJoin sshHome "id_dsa"
      ([.loadKey (some p)], (get_private_key env (some p)).map some)
    else ([], .error .noPrivateKeyFound)
  else ([], .ok none)

/-- The `try: ... except SSHException:` around the identity-file load in
`get_config_connection_details`: attempt the selected candidate, and only on
`SSHException` run the default-directory search. -/
def keyResolution (env : Env) (cand : Option String) :
    List Event × Except Err (Option KeyMaterial) :=
  match get_private_key env cand with
  | .ok k => ([Event.loadKey cand], .ok (some k))
  | .error .sshExc =>
    let f := defaultKeySearch env
    (Event.loadKey cand :: f.1, f.2)
  | .error e => ([Event.loadKey cand], .error e)

/-- The `(hostname, user, port, private_key)` tuple returned by
`SFTP.get_config_connection_details`. -/
structure ConfigConn where
  hostname : String
  user : String
  port : Nat
  key : Option KeyMaterial
deriving DecidableEq, Repr

/-- Translation of `SFTP.get_config_connection_details`: load and look up the ssh config
(`NoSSHConfigFound` when the file is absent), resolve the private key with
the fallback chain, then apply the field defaults
(`hostname`/`port`/`user`) with `.strip()` on the two string fields. -/
def get_config_connection_details (env : Env) (obj : SFTPObj) :
    List Event × Except Err ConfigConn :=
  if env.configExists then
    let entry := env.config obj.host
    let sel := selectIdentity entry.identityfile
    match sel.2 with
    | .error e => (Event.configLoad obj.sshConfigPath :: sel.1, .error e)
    | .ok cand =>
      let kr := keyResolution env cand
      (Event.configLoad obj.sshConfigPath :: (sel.1 ++ kr.1),
       match kr.2 with
       | .error e => .error e
       | .ok pk =>
         .ok ⟨pyStrip (entry.hostname.getD obj.host),
              pyStrip (entry.user.getD (pyOr obj.user env.osUser)),
              entry.port.getD obj.port, pk⟩)
  else ([Event.configLoad obj.sshConfigPath], .error .noSSHConfigFound)

/-- Translation of `SFTP._get_transport`: when `self.user and self.pkey` are both truthy,
use the constructor arguments directly (no config access); otherwise resolve
everything from the ssh config.  The result records the arguments of
`paramiko.Transport((hostname, port))` / `transport.connect(...)`. -/
def get_transport (env : Env) (obj : SFTPObj) : List Event × Except Err ConfigConn :=
  if truthyS obj.user && truthyS obj.pkey then
    match get_private_key env obj.pkey with
    | .error e => ([Event.loadKey obj.pkey], .error e)
    | .ok k =>
      ([Event.loadKey obj.pkey, .connect obj.host obj.port (obj.user.getD "")],
       .ok ⟨obj.host, obj.user.getD "", obj.port, some k⟩)
  else
    match get_config_connection_details env obj with
    | (ev, .error e) => (ev, .error e)
    | (ev, .ok c) => (ev ++ [.connect c.hostname c.port c.user], .ok c)

/-- Translation of `SFTP.create_client`: build the transport and derive the SFTP client,
leaving both handles set and open. -/
def create_client (env : Env) (obj : SFTPObj) : List Event × Except Err SFTPState :=
  match get_transport env obj with
  | (ev, .error e) => (ev, .error e)
  | (ev, .ok _) => (ev, .ok ⟨some true, true⟩)

/-- The `if self.transport is None or self.sftp is None: self.create_client()`
guard at the top of `SFTP.client`. -/
def ensure_client (env : Env) (obj : SFTPObj) (st : SFTPState) :
    List Event × Except Err SFTPState :=
  if st.transport.isNone || !st.sftp then create_client env obj
  else ([], .ok st)

/-- Translation of `SFTP.list_files` (i.e. `self.client('listdir', [remote_path])`). -/
def list_files (env : Env) (obj : SFTPObj) (st : SFTPState) (dir : String) :
    List Event × Except Err (SFTPState × List String) :=
  match ensure_client env obj st with
  | (ev, .error e) => (ev, .error e)
  | (ev, .ok st1) =>
    (ev ++ [.listdir dir (aliveOf st1)],
     match env.listdir dir with
     | .ok ns => .ok (st1, ns)
     | .error e => .error e)

/-- Translation of `SFTP.get_file` (i.e. `self.client('get', [remote_file, local_path])`). -/
def get_file (env : Env) (obj : SFTPObj) (st : SFTPState) (remote localPath : String) :
    List Event × Except Err SFTPState :=
  match ensure_client env obj st with
  | (ev, .error e) => (ev, .error e)
  | (ev, .ok st1) =>
    (ev ++ [.getOp remote localPath (aliveOf st1)],
     match env.getf remote localPath with
     | .ok _ => .ok st1
     | .error e => .error e)

/-- Translation of `SFTP.remove_file` (i.e. `self.client('remove', [remote_file])`). -/
def remove_file (env : Env) (obj : SFTPObj) (st : SFTPState) (remote : String) :
    List Event × Except Err SFTPState :=
  match ensure_client env obj st with
  | (ev, .error e) => (ev, .error e)
  | (ev, .ok st1) =>
    (ev ++ [.removeOp remote (aliveOf st1)],
     match env.removef remote with
     | .ok _ => .ok st1
     | .error e => .error e)

/-- Translation of `SFTP.upload_file` (i.e. `self.client('put', [local_file, remote_path])`). -/
def upload_file (env : Env) (obj : SFTPObj) (st : SFTPState) (localFile remote : String) :
    List Event × Except Err SFTPState :=
  match ensure_client env obj st with
  | (ev, .error e) => (ev, .error e)
  | (ev, .ok st1) =>
    (ev ++ [.putOp localFile remote (aliveOf st1)],
     match env.putf localFile remote with
     | .ok _ => .ok st1
     | .error e => .error e)

/-- Translation of `SFTP.open_file`: a context manager that opens the remote file with the
hard-coded mode string `'r'` (the `mode` parameter is never used), runs the
body, and closes the handle in a `finally:` whether the body succeeds or
fails.  When the open itself fails there is no handle and nothing to close. -/
def open_file (env : Env) (obj : SFTPObj) (st : SFTPState) (remote : String)
    (mode : String) (body : Nat → Except Err Unit) :
    List Event × Except Err SFTPState :=
  match ensure_client env obj st with
  | (ev, .error e) => (ev, .error e)
  | (ev, .ok st1) =>
    match env.fileOpen remote "r" with
    | .error e => (ev ++ [.fileOpen remote "r" (aliveOf st1)], .error e)
    | .ok fd =>
      (ev ++ [.fileOpen remote "r" (aliveOf st1), .fileClose fd],
       match body fd with
       | .ok _ => .ok st1
       | .error e => .error e)

/-- The filter of the list comprehension in `SFTP.get_files`:
`(starts_with and f.startswith(starts_with)) or (ends_with and f.endswith(ends_with))`. -/
def nameMatches (sw ew : Option String) (f : String) : Bool :=
  (match sw with
   | some s => !(s == "") && pyStartsWith f s
   | none => false)
  ||
  (match ew with
   | some s => !(s == "") && pyEndsWith f s
   | none => false)

/-- The download loop of `SFTP.get_files`: for each matching name, join the
remote and local paths, fetch the file, and — when `delete_files` — remove
the remote file immediately, before moving to the next name.  The first
failure stops the loop and propagates. -/
def getFilesLoop (env : Env) (obj : SFTPObj) (remotePath localPath : String)
    (deleteFiles : Bool) : SFTPState → List String → List Event × Except Err SFTPState
  | st, [] => ([], .ok st)
  | st, f :: rest =>
    let rf := pathJoin remotePath f
    let lf := pathJoin localPath f
    match get_file env obj st rf lf with
    | (ev1, .error e) => (ev1, .error e)
    | (ev1, .ok st1) =>
      if deleteFiles then
        match remove_file env obj st1 rf with
        | (ev2, .error e) => (ev1 ++ ev2, .error e)
        | (ev2, .ok st2) =>
          let rec3 := getFilesLoop env obj remotePath localPath deleteFiles st2 rest
          (ev1 ++ ev2 ++ rec3.1, rec3.2)
      else
        let rec3 := getFilesLoop env obj remotePath localPath deleteFiles st1 rest
        (ev1 ++ rec3.1, rec3.2)

/-- Translation of `SFTP.get_files`: default the local directory to `os.getcwd()` (Python
`or`, so an empty string also defaults), list the remote directory once,
filter the names with `nameMatches`, then run the download loop. -/
def get_files (env : Env) (obj : SFTPObj) (st : SFTPState) (remotePath : String)
    (localPath : Option String) (deleteFiles : Bool) (sw ew : Option String) :
    List Event × Except Err SFTPState :=
  let lp := pyOr localPath env.cwd
  match list_files env obj st remotePath with
  | (ev, .error e) => (ev, .error e)
  | (ev, .ok (st1, names)) =>
    let remoteFiles := names.filter (nameMatches sw ew)
    let lp3 := getFilesLoop env obj remotePath lp deleteFiles st1 remoteFiles
    (ev ++ lp3.1, lp3.2)

/-- Model of `os.path.basename`: everything after the last `/`. -/
def basename (f : String) : String :=
  ⟨(f.data.reverse.takeWhile (fun c => c ≠ '/')).reverse⟩

/-- Translation of `SFTP.upload_files`: upload each local file into `remote_path` under its
base name, in order, stopping at the first failure. -/
def upload_files (env : Env) (obj : SFTPObj) :
    SFTPState → List String → String → List Event × Except Err SFTPState
  | st, [], _ => ([], .ok st)
  | st, f :: rest, remotePath =>
    match upload_file env obj st f (pathJoin remotePath (basename f)) with
    | (ev1, .error e) => (ev1, .error e)
    | (ev1, .ok st1) =>
      let r := upload_files env obj st1 rest remotePath
      (ev1 ++ r.1, r.2)

/-- The arguments of the `loadKey` events of a trace, in order: one entry per
call of `SFTP._get_private_key`. -/
def loadKeyArgs (evs : List Event) : List (Option String) :=
  evs.filterMap (fun e =>
    match e with
    | .loadKey p => some p
    | _ => none)

/-! Concrete environments used to instantiate the theorems. -/

/-- A config entry with every field absent. -/
def entryNone : SSHConfigEntry := ⟨none, none, none, none⟩

/-- A baseline concrete environment: config file present with an empty
entry, one explicit key `/k` that decodes as RSA, no `~/.ssh` directory,
a three-file remote listing, and all remote operations succeeding. -/
def envW : Env where
  home := "/home/u"
  osUser := "sysuser"
  cwd := "/cwd"
  configExists := true
  config := fun _ => entryNone
  rsa := fun p => if p = some "/k" then .ok ⟨1⟩ else .error .sshExc
  dss := fun _ => .error .sshExc
  sshHomeExists := false
  sshHomeList := []
  listdir := fun _ => .ok ["some.tgz", "other.zip", "more.tgz"]
  getf := fun _ _ => .ok ()
  removef := fun _ => .ok ()
  putf := fun _ _ => .ok ()
  fileOpen := fun _ _ => .ok 7

/-- An `SFTP` object constructed with explicit `user` and `pkey`. -/
def objExplicit : SFTPObj := ⟨"myhost", some "/k", 2022, some "alice", "/home/u/.ssh/config"⟩

/-- An `SFTP` object constructed with only a host alias. -/
def objAlias : SFTPObj := ⟨"myhost", none, 22, none, "/home/u/.ssh/config"⟩

/-- Environment in which every path fails RSA decoding and exactly
`/home/u/kd` decodes as DSS. -/
def envC4 : Env :=
  { envW with
    rsa := fun _ => .error .sshExc,
    dss := fun p => if p = some "/home/u/kd" then .ok ⟨2⟩ else .error .sshExc }

/-- Environment whose config entry has a two-element identity-file list,
the first of which decodes as RSA. -/
def envC5 : Env :=
  { envW with
    config := fun _ => { entryNone with identityfile := some (.list ["/k", "/other"]) } }

/-- Environment whose `~/.ssh` exists but holds no conventionally named key. -/
def envC2 : Env := { envW with sshHomeExists := true, sshHomeList := ["config"] }

/-- Environment where `~/.ssh` contains both `id_rsa` and `id_dsa`,
`id_rsa` fails to decode either way, and `id_dsa` would decode fine. -/
def envC3 : Env :=
  { envW with
    sshHomeExists := true,
    sshHomeList := ["id_rsa", "id_dsa"],
    rsa := fun p => if p = some "/home/u/.ssh/id_dsa" then .ok ⟨3⟩ else .error .sshExc,
    dss := fun p => if p = some "/home/u/.ssh/id_dsa" then .ok ⟨3⟩ else .error .sshExc }

/-- Environment whose config entry carries a whitespace-padded hostname and
port but no user, over an existing `~/.ssh` that cannot provide a key —
exercising the mixed present/absent-field case of the lookup. -/
def envC6 : Env :=
  { envW with
    config := fun _ => { entryNone with
      hostname := some " real.host.example \t", port := some 456,
      identityfile := some (.str "/k") } }

/-! Helper lemmas about `pyStrip`. -/

theorem dropWhile_append_all {α : Type} (p : α → Bool) (ws l : List α)
    (h : ∀ c ∈ ws, p c = true) :
    List.dropWhile p (ws ++ l) = List.dropWhile p l := by
  induction ws with
  | nil => rfl
  | cons a t ih =>
    have ha : p a = true := h a (List.mem_cons_self a t)
    simp only [List.cons_append, List.dropWhile_cons, ha, if_true]
    exact ih (fun c hc => h c (List.mem_cons_of_mem a hc))

theorem rdropWhile_append_all {α : Type} (p : α → Bool) (l ws : List α)
    (h : ∀ c ∈ ws, p c = true) :
    List.rdropWhile p (l ++ ws) = List.rdropWhile p l := by
  simp only [List.rdropWhile, List.reverse_append]
  rw [dropWhile_append_all p ws.reverse l.reverse
    (fun c hc => h c (List.mem_reverse.mp hc))]

theorem strip_core (p ws' : List Char) (h2 : ∀ c ∈ ws', isPySpace c = true) :
    List.rdropWhile isPySpace (List.dropWhile isPySpace (p ++ ws')) =
      List.rdropWhile isPySpace (List.dropWhile isPySpace p) := by
  induction p with
  | nil =>
    simp only [List.nil_append, List.dropWhile_nil]
    rw [List.dropWhile_eq_nil_iff.mpr h2]
  | cons c t ih =>
    by_cases hc : isPySpace c = true
    · simp only [List.cons_append, List.dropWhile_cons, hc, if_true]
      exact ih
    · simp only [List.cons_append, List.dropWhile_cons, hc, if_false]
      rw [show c :: (t ++ ws') = (c :: t) ++ ws' from rfl]
      exact rdropWhile_append_all _ _ _ h2

/-- Surrounding a string with whitespace does not change its `strip()`. -/
theorem pyStrip_pad (ws p ws' : String)
    (h1 : ∀ c ∈ ws.data, isPySpace c = true) (h2 : ∀ c ∈ ws'.data, isPySpace c = true) :
    pyStrip (ws ++ p ++ ws') = pyStrip p := by
  show (⟨_⟩ : String) = (⟨_⟩ : String)
  rw [String.data_append, String.data_append, List.append_assoc,
    dropWhile_append_all _ ws.data _ h1, strip_core p.data ws'.data h2]

theorem dropWhile_rdropWhile_of_fix (p : Char → Bool) (l : List Char)
    (h : List.dropWhile p l = l) :
    List.dropWhile p (List.rdropWhile p l) = List.rdropWhile p l := by
  rcases hr : List.rdropWhile p l with _ | ⟨c, t⟩
  · rfl
  · have hpre : List.rdropWhile p l <+: l := List.rdropWhile_prefix p l
    rw [hr] at hpre
    have hlen : 0 < l.length := by
      rcases hpre with ⟨r, hrr⟩
      subst hrr
      simp
    have hc : ¬p (l.get ⟨0, hlen⟩) = true := List.dropWhile_eq_self_iff.mp h hlen
    have hc0 : c = l.get ⟨0, hlen⟩ := by
      have := hpre.getElem (n := 0) (by simp)
      simpa using this
    rw [List.dropWhile_cons, if_neg (by rw [hc0]; exact hc)]

/-- The output of `strip()` really has no surrounding whitespace. -/
theorem isTrimmed_pyStrip (s : String) : IsTrimmed (pyStrip s) := by
  constructor
  · exact dropWhile_rdropWhile_of_fix _ _ (List.dropWhile_idempotent _ _)
  · exact List.rdropWhile_idempotent _ _

/-! ## Claims -/

/-- C1: with both an explicit (truthy) user and private-key path, building
the transport never loads or looks up the ssh config, and connects to the
constructor's host alias and port as the explicit user with
`load_key(explicit_key_path)`; a key-load failure propagates. -/
theorem c1_explicit_credentials_bypass_config (env : Env) (obj : SFTPObj) (u p : String)
    (hu : obj.user = some u) (hu0 : u ≠ "") (hp : obj.pkey = some p) (hp0 : p ≠ "") :
    (∀ cp, Event.configLoad cp ∉ (get_transport env obj).1) ∧
    (∀ k, get_private_key env (some p) = .ok k →
      get_transport env obj =
        ([Event.loadKey (some p), Event.connect obj.host obj.port u],
         .ok ⟨obj.host, u, obj.port, some k⟩)) ∧
    (∀ e, get_private_key env (some p) = .error e →
      get_transport env obj = ([Event.loadKey (some p)], .error e)) := by
  have htu : truthyS (some u) = true := by simp [truthyS, hu0]
  have htp : truthyS (some p) = true := by simp [truthyS, hp0]
  refine ⟨?_, ?_, ?_⟩
  · intro cp
    simp only [get_transport, hu, hp, htu, htp, Bool.and_self, if_true]
    cases hk : get_private_key env (some p) <;> simp
  · intro k hk
    simp [get_transport, hu, hp, htu, htp, hk]
  · intro e hk
    simp [get_transport, hu, hp, htu, htp, hk]

/-- C1 witness: the hypotheses and conclusion of
`c1_explicit_credentials_bypass_config` at a concrete instance. -/
theorem c1_witness :
    objExplicit.user = some "alice" ∧ objExplicit.pkey = some "/k" ∧
    get_transport envW objExplicit =
      ([Event.loadKey (some "/k"), Event.connect "myhost" 2022 "alice"],
       .ok ⟨"myhost", "alice", 2022, some ⟨1⟩⟩) :=
  ⟨rfl, rfl,
   (c1_explicit_credentials_bypass_config envW objExplicit "alice" "/k" rfl (by decide) rfl
     (by decide)).2.1 ⟨1⟩ (by decide)⟩

/-- C4: `load_key` first strips surrounding whitespace and expands a leading
home shorthand (so a whitespace-padded path decodes the same key as the clean
path), then tries the RSA decoder; on an `SSHException` decode failure it
returns whatever the DSS decoder yields — its success without error, its
failure propagated. -/
theorem c4_load_key_strip_expand_and_dss_fallback (env : Env) :
    (∀ ws p ws' : String, (∀ c ∈ ws.data, isPySpace c = true) →
       (∀ c ∈ ws'.data, isPySpace c = true) →
       get_private_key env (some (ws ++ p ++ ws')) = get_private_key env (some p)) ∧
    (∀ p k, env.rsa (some (expanduser env.home (pyStrip p))) = .ok k →
       get_private_key env (some p) = .ok k) ∧
    (∀ p, env.rsa (some (expanduser env.home (pyStrip p))) = .error .sshExc →
       get_private_key env (some p) = env.dss (some (expanduser env.home (pyStrip p)))) := by
  refine ⟨?_, ?_, ?_⟩
  · intro ws p ws' h1 h2
    simp only [get_private_key, Option.map_some', pyStrip_pad ws p ws' h1 h2]
  · intro p k hk
    simp [get_private_key, hk]
  · intro p hk
    simp [get_private_key, hk]

/-- C4 witness: `c4_load_key_strip_expand_and_dss_fallback` at a concrete
environment: `" \t~/kd \n"` decodes the same key as `"~/kd"`, which the RSA
decoder rejects and the DSS decoder accepts. -/
theorem c4_witness :
    get_private_key envC4 (some " \t~/kd \n") = get_private_key envC4 (some "~/kd") ∧
    get_private_key envC4 (some "~/kd") = envC4.dss (some "/home/u/kd") ∧
    envC4.dss (some "/home/u/kd") = .ok ⟨2⟩ :=
  ⟨(c4_load_key_strip_expand_and_dss_fallback envC4).1 " \t" "~/kd" " \n"
     (by decide) (by decide),
   by
    have h := (c4_load_key_strip_expand_and_dss_fallback envC4).2.2 "~/kd" (by rfl)
    simpa using h,
   rfl⟩

/-- C10: every `mode` argument to `open_file` is ignored — the remote file is
opened with the literal mode string `'r'` — and when the open succeeds the
handle is closed on both the normal and the error exit path of the body;
the claim is stated as one equation whose right side does not depend on
`mode` and always ends the trace with `fileClose`. -/
theorem c10_open_file_mode_ignored_close_always (env : Env) (obj : SFTPObj)
    (st : SFTPState) (remote mode : String) (res : Except Err Unit)
    (hT : st.transport = some true) (hS : st.sftp = true) :
    (∀ body : Nat → Except Err Unit,
       open_file env obj st remote mode body = open_file env obj st remote "r" body) ∧
    open_file env obj st remote mode (fun _ => res) =
      (match env.fileOpen remote "r" with
       | .error e => ([Event.fileOpen remote "r" true], .error e)
       | .ok fd =>
         ([Event.fileOpen remote "r" true, Event.fileClose fd],
          match res with
          | .ok _ => .ok st
          | .error e => .error e)) := by
  have hens : ensure_client env obj st = ([], .ok st) := by
    simp [ensure_client, hT, hS]
  have halive : aliveOf st = true := by simp [aliveOf, hT]
  refine ⟨fun body => rfl, ?_⟩
  simp only [open_file, hens, halive]
  cases hf : env.fileOpen remote "r" with
  | error e => simp
  | ok fd => cases res <;> simp

/-- C10 witness: `c10_open_file_mode_ignored_close_always` with mode `"wb"`
and a failing body at a concrete instance: the file is opened with `'r'`
and still closed. -/
theorem c10_witness :
    open_file envW objExplicit ⟨some true, true⟩ "/r/f.txt" "wb" (fun _ => .error .sshExc) =
      ([Event.fileOpen "/r/f.txt" "r" true, Event.fileClose 7], .error .sshExc) := by
  have h := (c10_open_file_mode_ignored_close_always envW objExplicit ⟨some true, true⟩
    "/r/f.txt" "wb" (.error .sshExc) rfl rfl).2
  simpa using h

/-- C6: for every config lookup on the config-resolution path that returns,
each field falls back independently when absent from the matched entry —
hostname to the alias, port to the caller-supplied default, user to the
explicit user if given (else the OS user) — a present hostname or user is
returned stripped, and the returned hostname and user are always
whitespace-trimmed. -/
theorem c6_config_lookup_fallback_defaults (env : Env) (obj : SFTPObj) :
    ∀ evs c, get_config_connection_details env obj = (evs, .ok c) →
      ((env.config obj.host).hostname = none → c.hostname = pyStrip obj.host) ∧
      (∀ h, (env.config obj.host).hostname = some h → c.hostname = pyStrip h) ∧
      ((env.config obj.host).port = none → c.port = obj.port) ∧
      (∀ p, (env.config obj.host).port = some p → c.port = p) ∧
      ((env.config obj.host).user = none → c.user = pyStrip (pyOr obj.user env.osUser)) ∧
      (∀ u, (env.config obj.host).user = some u → c.user = pyStrip u) ∧
      IsTrimmed c.hostname ∧ IsTrimmed c.user := by
  intro evs c heq
  simp only [get_config_connection_details] at heq
  split at heq
  · split at heq
    · exact absurd (congrArg Prod.snd heq) (by simp)
    · have h2 := congrArg Prod.snd heq
      simp only at h2
      split at h2
      · exact absurd h2 (by simp)
      · rw [Except.ok.injEq] at h2
        subst h2
        refine ⟨?_, ?_, ?_, ?_, ?_, ?_, isTrimmed_pyStrip _, isTrimmed_pyStrip _⟩
        · intro hh; simp [hh]
        · intro h hh; simp [hh]
        · intro hp; simp [hp]
        · intro p hp; simp [hp]
        · intro hu; simp [hu]
        · intro u hu; simp [hu]
  · exact absurd (congrArg Prod.snd heq) (by simp)

/-- C6 witness: `c6_config_lookup_fallback_defaults` on an entry with
hostname and port present but user absent: the present hostname comes back
stripped, the present port wins over the default, the absent user falls
back to the OS user, and both strings are trimmed. -/
theorem c6_witness :
    get_config_connection_details envC6 objAlias =
      ([Event.configLoad "/home/u/.ssh/config", Event.loadKey (some "/k")],
       .ok ⟨"real.host.example", "sysuser", 456, some ⟨1⟩⟩) ∧
    ("real.host.example" = pyStrip " real.host.example \t" ∧
      (456 : Nat) = 456 ∧
      "sysuser" = pyStrip (pyOr objAlias.user envC6.osUser) ∧
      IsTrimmed "real.host.example" ∧ IsTrimmed "sysuser") := by
  have hrun : get_config_connection_details envC6 objAlias =
      ([Event.configLoad "/home/u/.ssh/config", Event.loadKey (some "/k")],
       .ok ⟨"real.host.example", "sysuser", 456, some ⟨1⟩⟩) := by decide
  have h := c6_config_lookup_fallback_defaults envC6 objAlias
    [Event.configLoad "/home/u/.ssh/config", Event.loadKey (some "/k")]
    ⟨"real.host.example", "sysuser", 456, some ⟨1⟩⟩ hrun
  refine ⟨hrun, ?_, ?_, ?_, ?_, ?_⟩
  · exact h.2.1 " real.host.example \t" rfl
  · exact h.2.2.2.1 456 rfl
  · exact h.2.2.2.2.1 rfl
  · exact h.2.2.2.2.2.2.1
  · exact h.2.2.2.2.2.2.2

/-- C5: a multi-element identity-file list logs a warning (no error) and key
resolution attempts `load_key` on the first element only: the complete list
of `load_key` call arguments is the first element, possibly followed by one
of the two fixed fallback paths in `~/.ssh` — never another list element. -/
theorem c5_multi_identityfile_uses_first_only (env : Env) (obj : SFTPObj)
    (x y : String) (ys : List String)
    (hconf : env.configExists = true)
    (hid : (env.config obj.host).identityfile = some (.list (x :: y :: ys))) :
    Event.warnMultipleKeys (x :: y :: ys) x ∈ (get_config_connection_details env obj).1 ∧
    (loadKeyArgs (get_config_connection_details env obj).1 = [some x] ∨
     loadKeyArgs (get_config_connection_details env obj).1 =
       [some x, some (pathJoin (expanduser env.home "~/.ssh") "id_rsa")] ∨
     loadKeyArgs (get_config_connection_details env obj).1 =
       [some x, some (pathJoin (expanduser env.home "~/.ssh") "id_dsa")]) := by
  have hsel : selectIdentity (env.config obj.host).identityfile =
      ([Event.warnMultipleKeys (x :: y :: ys) x], .ok (some x)) := by
    rw [hid]
    rfl
  constructor
  · simp [get_config_connection_details, hconf, hsel]
  · cases hk : get_private_key env (some x) with
    | ok k =>
      left
      simp [get_config_connection_details, hconf, hsel, keyResolution, hk, loadKeyArgs]
    | error e =>
      cases e with
      | sshExc =>
        by_cases hex : env.sshHomeExists = true
        · by_cases hrsa : "id_rsa" ∈ env.sshHomeList
          · right; left
            simp [get_config_connection_details, hconf, hsel, keyResolution, hk,
              defaultKeySearch, hex, hrsa, loadKeyArgs]
          · by_cases hdsa : "id_dsa" ∈ env.sshHomeList
            · right; right
              simp [get_config_connection_details, hconf, hsel, keyResolution, hk,
                defaultKeySearch, hex, hrsa, hdsa, loadKeyArgs]
            · left
              simp [get_config_connection_details, hconf, hsel, keyResolution, hk,
                defaultKeySearch, hex, hrsa, hdsa, loadKeyArgs]
        · left
          simp [get_config_connection_details, hconf, hsel, keyResolution, hk,
            defaultKeySearch, hex, loadKeyArgs]
      | noSSHConfigFound =>
        left
        simp [get_config_connection_details, hconf, hsel, keyResolution, hk, loadKeyArgs]
      | noPrivateKeyFound =>
        left
        simp [get_config_connection_details, hconf, hsel, keyResolution, hk, loadKeyArgs]
      | otherExc =>
        left
        simp [get_config_connection_details, hconf, hsel, keyResolution, hk, loadKeyArgs]
      | indexError =>
        left
        simp [get_config_connection_details, hconf, hsel, keyResolution, hk, loadKeyArgs]

/-- C5 witness: `c5_multi_identityfile_uses_first_only` at a concrete
two-element list: the warning is logged and only `/k` is ever attempted. -/
theorem c5_witness :
    Event.warnMultipleKeys ["/k", "/other"] "/k" ∈
      (get_config_connection_details envC5 objAlias).1 ∧
    loadKeyArgs (get_config_connection_details envC5 objAlias).1 = [some "/k"] := by
  have h := c5_multi_identityfile_uses_first_only envC5 objAlias "/k" "/other" []
    rfl rfl
  refine ⟨h.1, ?_⟩
  rcases h.2 with h1 | h1 | h1
  · exact h1
  · exact absurd h1 (by decide)
  · exact absurd h1 (by decide)

/-- C2 counterexample: no identity file, the `None` load fails, and `~/.ssh`
does not exist — the original claim demands `NoPrivateKeyFound`, but
resolution returns successfully with no key at all (the
`if not private_key: raise` sits inside the directory-exists branch). -/
theorem c2_counterexample :
    get_private_key envW none = .error .sshExc ∧
    envW.sshHomeExists = false ∧
    (get_config_connection_details envW objAlias).2 = .ok ⟨"myhost", "sysuser", 22, none⟩ ∧
    (get_config_connection_details envW objAlias).2 ≠ .error .noPrivateKeyFound := by
  refine ⟨rfl, rfl, by decide, by decide⟩

/-- C2 (amended): when the selected candidate (possibly `None`) fails with a
decode error, the default key directory exists, and neither `id_rsa` nor
`id_dsa` appears in its listing, key resolution fails with the distinct
error `NoPrivateKeyFound`. -/
theorem c2_no_private_key_found (env : Env) (obj : SFTPObj) (cand : Option String)
    (hconf : env.configExists = true)
    (hsel : (selectIdentity (env.config obj.host).identityfile).2 = .ok cand)
    (hload : get_private_key env cand = .error .sshExc)
    (hex : env.sshHomeExists = true)
    (hrsa : "id_rsa" ∉ env.sshHomeList)
    (hdsa : "id_dsa" ∉ env.sshHomeList) :
    (get_config_connection_details env obj).2 = .error .noPrivateKeyFound := by
  simp [get_config_connection_details, hconf, hsel, keyResolution, hload,
    defaultKeySearch, hex, hrsa, hdsa]

/-- C2 witness: `c2_no_private_key_found` at a concrete instance. -/
theorem c2_witness :
    (get_config_connection_details envC2 objAlias).2 = .error .noPrivateKeyFound :=
  c2_no_private_key_found envC2 objAlias none rfl rfl rfl rfl (by decide) (by decide)

/-- C3 counterexample: both canonical files exist and `id_dsa` would load,
yet after the `id_rsa` load fails the raw decode error propagates and
`id_dsa` is never attempted — the search does not try each name stopping at
the first success. -/
theorem c3_counterexample :
    get_private_key envC3 (some "/home/u/.ssh/id_dsa") = .ok ⟨3⟩ ∧
    (get_config_connection_details envC3 objAlias).2 = .error .sshExc ∧
    loadKeyArgs (get_config_connection_details envC3 objAlias).1 =
      [none, some "/home/u/.ssh/id_rsa"] := by
  refine ⟨rfl, by decide, by decide⟩

/-- C3 (amended): when the candidate load (including the no-candidate case)
fails with a decode error and the default directory exists, the fallback
consults the fixed order `id_rsa` before `id_dsa` but attempts `load_key`
only on the first of the two names present in the listing; that attempt's
result — success or propagated failure — is final, and the other name is
never tried; with neither name present it fails with `NoPrivateKeyFound`. -/
theorem c3_fallback_attempts_first_present_name (env : Env) (cand : Option String)
    (hload : get_private_key env cand = .error .sshExc)
    (hex : env.sshHomeExists = true) :
    ("id_rsa" ∈ env.sshHomeList →
       keyResolution env cand =
         ([Event.loadKey cand,
           Event.loadKey (some (pathJoin (expanduser env.home "~/.ssh") "id_rsa"))],
          (get_private_key env (some (pathJoin (expanduser env.home "~/.ssh") "id_rsa"))).map some)) ∧
    ("id_rsa" ∉ env.sshHomeList → "id_dsa" ∈ env.sshHomeList →
       keyResolution env cand =
         ([Event.loadKey cand,
           Event.loadKey (some (pathJoin (expanduser env.home "~/.ssh") "id_dsa"))],
          (get_private_key env (some (pathJoin (expanduser env.home "~/.ssh") "id_dsa"))).map some)) ∧
    ("id_rsa" ∉ env.sshHomeList → "id_dsa" ∉ env.sshHomeList →
       keyResolution env cand = ([Event.loadKey cand], .error .noPrivateKeyFound)) := by
  refine ⟨?_, ?_, ?_⟩
  · intro h1
    simp [keyResolution, hload, defaultKeySearch, hex, h1]
  · intro h1 h2
    simp [keyResolution, hload, defaultKeySearch, hex, h1, h2]
  · intro h1 h2
    simp [keyResolution, hload, defaultKeySearch, hex, h1, h2]

/-- C3 witness: `c3_fallback_attempts_first_present_name` at a concrete
instance with both canonical files present: only `id_rsa` is attempted. -/
theorem c3_witness :
    keyResolution envC3 none =
      ([Event.loadKey none,
        Event.loadKey (some (pathJoin (expanduser envC3.home "~/.ssh") "id_rsa"))],
       (get_private_key envC3 (some (pathJoin (expanduser envC3.home "~/.ssh") "id_rsa"))).map some) :=
  (c3_fallback_attempts_first_present_name envC3 none rfl rfl).1 (by decide)

/-- C7 counterexample: enter then exit leaves both handles set; the next
`list_files` performs no fresh connect — its whole trace is the bare
`listdir` on the dead transport (`alive = false`) — instead of creating a
fresh session as the claim requires. -/
theorem c7_counterexample :
    (create_client envW objExplicit).2 = .ok ⟨some true, true⟩ ∧
    sftpExit ⟨some true, true⟩ = ⟨some false, true⟩ ∧
    list_files envW objExplicit ⟨some false, true⟩ "/r" =
      ([Event.listdir "/r" false],
       .ok (⟨some false, true⟩, ["some.tgz", "other.zip", "more.tgz"])) := by
  refine ⟨by decide, rfl, by decide⟩

/-- C7 (amended): a fresh session is created only when a handle is absent
(`self.transport is None or self.sftp is None`); after the transport is
closed both handles remain set, so a file operation does not reconnect and
operates on the dead handle. -/
theorem c7_session_reuse_after_close (env : Env) (obj : SFTPObj) (st : SFTPState)
    (dir : String) (hT : st.transport = some false) (hS : st.sftp = true) :
    list_files env obj st dir =
      ([Event.listdir dir false],
       match env.listdir dir with
       | .ok ns => .ok (st, ns)
       | .error e => .error e) ∧
    (∀ st2 : SFTPState, (st2.transport = none ∨ st2.sftp = false) →
       ensure_client env obj st2 = create_client env obj) := by
  constructor
  · have hens : ensure_client env obj st = ([], .ok st) := by
      simp [ensure_client, hT, hS]
    have halive : aliveOf st = false := by simp [aliveOf, hT]
    simp [list_files, hens, halive]
  · intro st2 h2
    rcases h2 with h2 | h2 <;> simp [ensure_client, h2]

/-- C7 witness: `c7_session_reuse_after_close` at a concrete closed state. -/
theorem c7_witness :
    list_files envW objExplicit ⟨some false, true⟩ "/q" =
      ([Event.listdir "/q" false],
       .ok (⟨some false, true⟩, ["some.tgz", "other.zip", "more.tgz"])) := by
  have h := (c7_session_reuse_after_close envW objExplicit ⟨some false, true⟩ "/q" rfl rfl).1
  simpa using h

/-- The download loop over an open session with every transfer succeeding
and no deletion: one `getOp` per name, in listing order, state unchanged. -/
theorem getFilesLoop_no_delete (env : Env) (obj : SFTPObj) (rp lp : String)
    (st : SFTPState) (hT : st.transport = some true) (hS : st.sftp = true) :
    ∀ names : List String,
      (∀ f ∈ names, env.getf (pathJoin rp f) (pathJoin lp f) = .ok ()) →
      getFilesLoop env obj rp lp false st names =
        (names.map (fun f => Event.getOp (pathJoin rp f) (pathJoin lp f) true), .ok st) := by
  have hens : ensure_client env obj st = ([], .ok st) := by
    simp [ensure_client, hT, hS]
  have halive : aliveOf st = true := by simp [aliveOf, hT]
  intro names
  induction names with
  | nil => intro _; rfl
  | cons f rest ih =>
    intro hget
    have hf := hget f (List.mem_cons_self f rest)
    have hrest := ih (fun g hg => hget g (List.mem_cons_of_mem f hg))
    simp [getFilesLoop, get_file, hens, halive, hf, hrest]

/-- The download loop over an open session with every transfer and removal
succeeding and `delete_files` set: for each name, its `getOp` immediately
followed by its `removeOp`, before the next name's `getOp`. -/
theorem getFilesLoop_delete (env : Env) (obj : SFTPObj) (rp lp : String)
    (st : SFTPState) (hT : st.transport = some true) (hS : st.sftp = true) :
    ∀ names : List String,
      (∀ f ∈ names, env.getf (pathJoin rp f) (pathJoin lp f) = .ok ()) →
      (∀ f ∈ names, env.removef (pathJoin rp f) = .ok ()) →
      getFilesLoop env obj rp lp true st names =
        (names.flatMap (fun f =>
          [Event.getOp (pathJoin rp f) (pathJoin lp f) true,
           Event.removeOp (pathJoin rp f) true]), .ok st) := by
  have hens : ensure_client env obj st = ([], .ok st) := by
    simp [ensure_client, hT, hS]
  have halive : aliveOf st = true := by simp [aliveOf, hT]
  intro names
  induction names with
  | nil => intro _ _; rfl
  | cons f rest ih =>
    intro hget hrem
    have hf := hget f (List.mem_cons_self f rest)
    have hr := hrem f (List.mem_cons_self f rest)
    have hrest := ih (fun g hg => hget g (List.mem_cons_of_mem f hg))
      (fun g hg => hrem g (List.mem_cons_of_mem f hg))
    simp [getFilesLoop, get_file, remove_file, hens, halive, hf, hr, hrest]

/-- C8: the bulk download lists the directory once and downloads exactly the
names accepted by the Python filter — prefix given (non-empty) and matching,
OR suffix given (non-empty) and matching, an inclusive or — in listing
order; the second conjunct characterises that filter in spec terms. -/
theorem c8_bulk_download_filter_or_order (env : Env) (obj : SFTPObj) (st : SFTPState)
    (rp : String) (localPath : Option String) (sw ew : Option String) (names : List String)
    (hT : st.transport = some true) (hS : st.sftp = true)
    (hls : env.listdir rp = .ok names)
    (hget : ∀ f ∈ names.filter (nameMatches sw ew),
       env.getf (pathJoin rp f) (pathJoin (pyOr localPath env.cwd) f) = .ok ()) :
    get_files env obj st rp localPath false sw ew =
      (Event.listdir rp true ::
        (names.filter (nameMatches sw ew)).map
          (fun f => Event.getOp (pathJoin rp f) (pathJoin (pyOr localPath env.cwd) f) true),
       .ok st) ∧
    ∀ f, nameMatches sw ew f = true ↔
      ((∃ s, sw = some s ∧ s ≠ "" ∧ pyStartsWith f s = true) ∨
       (∃ s, ew = some s ∧ s ≠ "" ∧ pyEndsWith f s = true)) := by
  constructor
  · have hens : ensure_client env obj st = ([], .ok st) := by
      simp [ensure_client, hT, hS]
    have halive : aliveOf st = true := by simp [aliveOf, hT]
    have hloop := getFilesLoop_no_delete env obj rp (pyOr localPath env.cwd) st hT hS
      (names.filter (nameMatches sw ew)) hget
    simp [get_files, list_files, hens, halive, hls, hloop]
  · intro f
    cases sw with
    | none =>
      cases ew with
      | none => simp [nameMatches]
      | some t => by_cases ht : t = "" <;> simp [nameMatches, ht]
    | some s =>
      cases ew with
      | none => by_cases hs : s = "" <;> simp [nameMatches, hs]
      | some t =>
        by_cases hs : s = "" <;> by_cases ht : t = "" <;>
          simp [nameMatches, hs, ht]

/-- C8 witness: `c8_bulk_download_filter_or_order` with listing
`["some.tgz", "other.zip", "more.tgz"]` and suffix `tgz`: exactly the two
`.tgz` files are downloaded, in listing order. -/
theorem c8_witness :
    get_files envW objExplicit ⟨some true, true⟩ "/r" (some "/l") false none (some "tgz") =
      ([Event.listdir "/r" true,
        Event.getOp "/r/some.tgz" "/l/some.tgz" true,
        Event.getOp "/r/more.tgz" "/l/more.tgz" true],
       .ok ⟨some true, true⟩) := by
  have h := (c8_bulk_download_filter_or_order envW objExplicit ⟨some true, true⟩ "/r"
    (some "/l") none (some "tgz") ["some.tgz", "other.zip", "more.tgz"]
    rfl rfl rfl (by decide)).1
  exact h.trans (by decide)

/-- C9: with `delete_files` set, each matching remote file's `removeOp`
follows its own successful `getOp` immediately, before the next match's
`getOp` — per-file interleaving, not a batched removal at the end. -/
theorem c9_delete_after_each_download (env : Env) (obj : SFTPObj) (st : SFTPState)
    (rp : String) (localPath : Option String) (sw ew : Option String) (names : List String)
    (hT : st.transport = some true) (hS : st.sftp = true)
    (hls : env.listdir rp = .ok names)
    (hget : ∀ f ∈ names.filter (nameMatches sw ew),
       env.getf (pathJoin rp f) (pathJoin (pyOr localPath env.cwd) f) = .ok ())
    (hrem : ∀ f ∈ names.filter (nameMatches sw ew),
       env.removef (pathJoin rp f) = .ok ()) :
    get_files env obj st rp localPath true sw ew =
      (Event.listdir rp true ::
        (names.filter (nameMatches sw ew)).flatMap
          (fun f => [Event.getOp (pathJoin rp f) (pathJoin (pyOr localPath env.cwd) f) true,
                     Event.removeOp (pathJoin rp f) true]),
       .ok st) := by
  have hens : ensure_client env obj st = ([], .ok st) := by
    simp [ensure_client, hT, hS]
  have halive : aliveOf st = true := by simp [aliveOf, hT]
  have hloop := getFilesLoop_delete env obj rp (pyOr localPath env.cwd) st hT hS
    (names.filter (nameMatches sw ew)) hget hrem
  simp [get_files, list_files, hens, halive, hls, hloop]

/-- C9 witness: `c9_delete_after_each_download` at the concrete listing:
get `some.tgz`, remove it, then get `more.tgz`, then remove it. -/
theorem c9_witness :
    get_files envW objExplicit ⟨some true, true⟩ "/r" (some "/l") true none (some "tgz") =
      ([Event.listdir "/r" true,
        Event.getOp "/r/some.tgz" "/l/some.tgz" true,
        Event.removeOp "/r/some.tgz" true,
        Event.getOp "/r/more.tgz" "/l/more.tgz" true,
        Event.removeOp "/r/more.tgz" true],
       .ok ⟨some true, true⟩) := by
  have h := c9_delete_after_each_download envW objExplicit ⟨some true, true⟩ "/r"
    (some "/l") none (some "tgz") ["some.tgz", "other.zip", "more.tgz"]
    rfl rfl rfl (by decide) (by decide)
  exact h.trans (by decide)

end Sftp
